import Mathlib

/-!
Shallow embedding of the SyncEdge task-management backend (Express/Mongoose
server in the repository) and proofs about its visibility resolver, audit
recorder, notification dispatcher, access-control gate and group deletion.

Modelling conventions:
* Mongo ObjectId-typed fields (task owner, group id, task id, ...) are
  modelled as plain strings that stand for the already-cast ObjectId value.
  The schema field `assigned_to` is a String in the source and is cast at
  runtime by `new mongoose.Types.ObjectId(task.assigned_to)`; that explicit
  cast (which throws on non-hex input) is modelled by `isValidObjectId`.
* A JavaScript `Set` of ObjectId objects deduplicates by object reference,
  not by value; in `getUsersToNotify` every element inserted is a distinct
  object (a freshly constructed ObjectId, the task's own `owner` field, and
  the member documents of a fresh `populate` query), so the set is modelled
  as plain list concatenation.  The only value-level deduplication in the
  source is the explicit `task.owner.toString() !== task.assigned_to` test.
* Store failures of the best-effort side channels are injected through the
  `Fail` record: `auditSave` makes the `Audit` save throw (caught inside
  `recordAudit`), `groupFind` makes `Group.findById` throw inside
  `getUsersToNotify` (caught there), `notifInsert` makes
  `Notification.insertMany` throw (NOT caught in the source, so it escapes
  to the route handler, which answers 500).
* Route handlers are state transformers `DB -> (statusCode, DB)`.
-/

namespace SyncEdge

abbrev UserId := String
abbrev GroupId := String
abbrev TaskId := String
abbrev ObjId := String

/-- Source `userSchema`: name, username (unique), password hash; reset fields omitted
(not used by any modelled operation). -/
structure User where
  id : UserId
  name : String
  username : String
deriving Repr, DecidableEq

/-- Source `groupSchema`: name, owner (ObjectId), members (list of ObjectId). -/
structure Group where
  id : GroupId
  name : String
  owner : UserId
  members : List UserId
deriving Repr, DecidableEq

/-- Source `taskSchema`.  `visibility` is a string enum ('private'|'group'|'public',
default 'private'), `status` defaults to 1, `completed` to false.  `group` is
optional; `owner` is required.  `assigned_by`/`assigned_to` are free-form
strings.  The source field `type` is rendered `ttype` (keyword clash). -/
structure Task where
  id : TaskId
  title : String
  description : Option String := none
  link : Option String := none
  tags : Option String := none
  visibility : String := "private"
  completed : Bool := false
  status : Nat := 1
  group : Option GroupId := none
  owner : UserId
  assigned_by : Option String := none
  assigned_to : Option String := none
  priority : Option String := none
  dueDate : Option String := none
  ttype : Option String := none
  linkedTasks : List TaskId := []
deriving Repr, DecidableEq

/-- The `changes` object recorded by the update route: `title` is present only
when the compared titles differ, `group` only when the compared groups differ. -/
structure UpdateDiff where
  title : Option String := none
  group : Option (Option GroupId) := none
deriving Repr, DecidableEq

/-- The fixed snapshot written by the delete route (the source lists these
fields explicitly; note it does not include `type`). -/
structure DeleteSnap where
  title : String
  description : Option String
  link : Option String
  tags : Option String
  visibility : String
  completed : Bool
  status : Nat
  group : Option GroupId
  owner : UserId
  assigned_by : Option String
  assigned_to : Option String
  priority : Option String
  dueDate : Option String
  linkedTasks : List TaskId
deriving Repr, DecidableEq

/-- The heterogeneous `changes` payload of an audit record. -/
inductive AuditChanges where
  | createSnap (t : Task)
  | updateDiff (d : UpdateDiff)
  | deleteSnap (s : DeleteSnap)
deriving Repr, DecidableEq

/-- Source `auditSchema`: taskId, action ('create'|'update'|'delete'), changedBy,
changes. -/
structure AuditRecord where
  taskId : TaskId
  action : String
  changedBy : UserId
  changes : AuditChanges
deriving Repr, DecidableEq

/-- Source `notificationSchema`: userId, taskId, message, type, read (default false).
The source field `type` is rendered `ntype`. -/
structure Notification where
  userId : ObjId
  taskId : TaskId
  message : String
  ntype : String
  read : Bool := false
deriving Repr, DecidableEq

/-- The MongoDB collections.  `_id` values are unique per collection in the
real store; theorems that need this assume it explicitly. -/
structure DB where
  users : List User
  groups : List Group
  tasks : List Task
  audits : List AuditRecord
  notifications : List Notification
deriving Repr, DecidableEq

/-- Injected failures of individual store calls (see module comment). -/
structure Fail where
  auditSave : Bool := false
  groupFind : Bool := false
  notifInsert : Bool := false
deriving Repr, DecidableEq

def noFail : Fail := {}

def findUser (db : DB) (uid : String) : Option User :=
  db.users.find? (fun u => u.id == uid)

def findGroup (db : DB) (gid : GroupId) : Option Group :=
  db.groups.find? (fun g => g.id == gid)

def findTask (db : DB) (tid : TaskId) : Option Task :=
  db.tasks.find? (fun t => t.id == tid)

/-- JavaScript truthiness of an optional string field (absent and empty are
falsy). -/
def jsTruthy : Option String → Bool
  | none => false
  | some s => !(s == "")

def isHexChar (c : Char) : Bool :=
  c.isDigit || ('a' ≤ c && c ≤ 'f') || ('A' ≤ c && c ≤ 'F')

/-- The cast `new mongoose.Types.ObjectId(s)` succeeds exactly on 24-character hex
strings; anything else (a person name, an email, ...) throws. -/
def isValidObjectId (s : String) : Bool :=
  s.length == 24 && s.toList.all isHexChar

/-- GET /api/tasks: the ids of all groups having `userId` among `members`
(`Group.find({ members: userId }).distinct('_id')`). -/
def memberGroupIds (db : DB) (u : UserId) : List GroupId :=
  (db.groups.filter (fun g => g.members.contains u)).map (fun g => g.id)

/-- The `$or` filter of GET /api/tasks applied to one task document. -/
def taskVisibleTo (db : DB) (u : UserId) (t : Task) : Bool :=
  t.owner == u ||
  t.assigned_by == some u ||
  t.assigned_to == some u ||
  t.visibility == "public" ||
  (t.visibility == "group" &&
    (match t.group with
     | some gid => (memberGroupIds db u).contains gid
     | none => false))

/-- GET /api/tasks (`getTasks`): every stored task matching the `$or` filter. -/
def getTasks (db : DB) (u : UserId) : List Task :=
  db.tasks.filter (taskVisibleTo db u)

/-- Source `recordAudit(taskId, action, changedBy, changes)`: saves one audit
document; the whole body is wrapped in try/catch, so a failing save is logged
and swallowed and the store is left as it was. -/
def recordAudit (db : DB) (fl : Fail) (taskId : TaskId) (action : String)
    (changedBy : UserId) (changes : AuditChanges) : DB :=
  if fl.auditSave then db
  else { db with audits := db.audits ++
    [{ taskId := taskId, action := action, changedBy := changedBy, changes := changes }] }

/-- The body of `getUsersToNotify` before its catch-all: step 1 casts
`task.assigned_to` with `new mongoose.Types.ObjectId` (throws on non-hex
input), step 2 adds the owner when an assignee is present and differs from it,
step 3 fetches the group and appends every member (`Group.findById` failure or
a missing group document both throw).  The JS `Set` involved never merges any
of these insertions (they are distinct objects), hence the concatenation. -/
def getUsersToNotifyE (db : DB) (fl : Fail) (t : Task) : Except Unit (List ObjId) :=
  match (if jsTruthy t.assigned_to then
           (if isValidObjectId (t.assigned_to.getD "")
            then Except.ok [t.assigned_to.getD ""]
            else Except.error ())
         else Except.ok ([] : List ObjId)) with
  | Except.error e => Except.error e
  | Except.ok s1 =>
    let s2 :=
      if !(t.owner == "") && jsTruthy t.assigned_to && !(t.owner == t.assigned_to.getD "") then
        s1 ++ [t.owner]
      else s1
    if t.visibility == "group" && t.group.isSome then
      if fl.groupFind then Except.error ()
      else
        match findGroup db (t.group.getD "") with
        | none => Except.error ()
        | some g => Except.ok (s2 ++ g.members)
    else Except.ok s2

/-- Source `getUsersToNotify(task)`: the catch-all returns the empty list on any
failure inside the body. -/
def getUsersToNotify (db : DB) (fl : Fail) (t : Task) : List ObjId :=
  match getUsersToNotifyE db fl t with
  | Except.ok l => l
  | Except.error _ => []

/-- The message construction of `sendNotifications`: for `assignment` the
source runs `User.findById(task.assigned_to)` with no guard at all.  When the
field is absent (`undefined`/`null`) mongoose turns the query into
`findOne({_id: null})`, finds nothing, and the name defaults to "someone";
but when any string is present — the empty string included — mongoose casts
it to an ObjectId and rejects with a CastError unless it is valid hex, and
since `sendNotifications` has no try/catch that failure escapes to the route.
The `update` and `deleted` templates touch no store.  `actorId` stems from
the verified session token and is modelled as a plain lookup. -/
def notifMessage (db : DB) (t : Task) (ty : String) (actorId : UserId) :
    Except Unit String :=
  let actorName :=
    match findUser db actorId with
    | some u => u.name
    | none => "Someone"
  let taskTitle := if t.title == "" then "a task" else t.title
  if ty == "assignment" then
    match (if t.assigned_to.isSome then
             (if isValidObjectId (t.assigned_to.getD "")
              then Except.ok (findUser db (t.assigned_to.getD ""))
              else Except.error ())
           else Except.ok (none : Option User)) with
    | Except.error e => Except.error e
    | Except.ok assignee =>
      let assigneeName :=
        match assignee with
        | some u => u.name
        | none => "someone"
      Except.ok (actorName ++ " created a task \"" ++ taskTitle ++ "\" for " ++ assigneeName ++ ".")
  else if ty == "update" then
    Except.ok (actorName ++ " updated the task \"" ++ taskTitle ++ "\".")
  else if ty == "deleted" then
    Except.ok (actorName ++ " deleted the task \"" ++ taskTitle ++ "\".")
  else Except.ok ""

/-- The batch `Notification.insertMany` receives: one record per recipient,
sharing message, task and kind, `read` at its schema default `false`. -/
def notifBatch (userIds : List ObjId) (t : Task) (message : String) (ty : String) :
    List Notification :=
  userIds.map (fun uid =>
    { userId := uid, taskId := t.id, message := message, ntype := ty, read := false })

/-- Source `sendNotifications(userIds, task, type, actorId)`: builds the shared
message, then `Notification.insertMany` appends one record per recipient.
The function has no try/catch, so any failure escapes to the caller. -/
def sendNotifications (db : DB) (fl : Fail) (userIds : List ObjId) (t : Task)
    (ty : String) (actorId : UserId) : Except Unit DB :=
  match notifMessage db t ty actorId with
  | Except.error e => Except.error e
  | Except.ok message =>
    if fl.notifInsert then Except.error ()
    else
      Except.ok { db with notifications := db.notifications ++ notifBatch userIds t message ty }

/-- The request body of POST /api/tasks. -/
structure CreateBody where
  title : Option String := none
  description : Option String := none
  link : Option String := none
  tags : Option String := none
  visibility : Option String := none
  group : Option GroupId := none
  assigned_by : Option String := none
  assigned_to : Option String := none
  priority : Option String := none
  dueDate : Option String := none
  ttype : Option String := none
  linkedTasks : List TaskId := []
  status : Option Nat := none
deriving Repr, DecidableEq

/-- The save step `new Task({...}).save()`: schema validation rejects a missing or empty
required `title` and a `visibility` outside the enum; `status` defaults to 1,
`visibility` to 'private', `completed` to false.  `group` is spread into the
document only when truthy (`...(group && { group })`). -/
def buildNewTask (b : CreateBody) (actor : UserId) (newId : TaskId) : Option Task :=
  match b.title with
  | none => none
  | some ti =>
    if ti == "" then none
    else
      let vis := b.visibility.getD "private"
      if !(vis == "private" || vis == "group" || vis == "public") then none
      else some
        { id := newId, title := ti, description := b.description, link := b.link,
          tags := b.tags, visibility := vis, completed := false,
          status := b.status.getD 1, group := b.group, owner := actor,
          assigned_by := b.assigned_by, assigned_to := b.assigned_to,
          priority := b.priority, dueDate := b.dueDate, ttype := b.ttype,
          linkedTasks := b.linkedTasks }

/-- POST /api/tasks (`postTask`): save, `recordAudit('create', full doc)`,
`getUsersToNotify`, `sendNotifications('assignment')`, answer 201; any
uncaught throw lands in the route's catch and answers 500 (with everything
already written left in place). -/
def postTask (db : DB) (fl : Fail) (actor : UserId) (b : CreateBody)
    (newId : TaskId) : Nat × DB :=
  match buildNewTask b actor newId with
  | none => (500, db)
  | some newTask =>
    let db1 := { db with tasks := db.tasks ++ [newTask] }
    let db2 := recordAudit db1 fl newTask.id "create" actor (AuditChanges.createSnap newTask)
    let users := getUsersToNotify db2 fl newTask
    match sendNotifications db2 fl users newTask "assignment" actor with
    | Except.ok db3 => (201, db3)
    | Except.error _ => (500, db2)

/-- The request body of PUT /api/tasks/:id.  A `none` field was absent from
the JSON body (mongoose strips `undefined` values from the update document);
`group` is additionally guarded by `...(group && { group })` in the source. -/
structure UpdateBody where
  title : Option String := none
  description : Option String := none
  link : Option String := none
  tags : Option String := none
  visibility : Option String := none
  completed : Option Bool := none
  status : Option Nat := none
  group : Option GroupId := none
  assigned_by : Option String := none
  assigned_to : Option String := none
  priority : Option String := none
  dueDate : Option String := none
  ttype : Option String := none
  linkedTasks : Option (List TaskId) := none
deriving Repr, DecidableEq

/-- The document produced by `findOneAndUpdate`: provided fields overwrite,
absent fields keep their stored value. -/
def applyUpdate (t : Task) (b : UpdateBody) : Task :=
  { t with
    title := b.title.getD t.title,
    description := match b.description with | some v => some v | none => t.description,
    link := match b.link with | some v => some v | none => t.link,
    tags := match b.tags with | some v => some v | none => t.tags,
    visibility := b.visibility.getD t.visibility,
    completed := b.completed.getD t.completed,
    status := b.status.getD t.status,
    group := match b.group with | some v => some v | none => t.group,
    assigned_by := match b.assigned_by with | some v => some v | none => t.assigned_by,
    assigned_to := match b.assigned_to with | some v => some v | none => t.assigned_to,
    priority := match b.priority with | some v => some v | none => t.priority,
    dueDate := match b.dueDate with | some v => some v | none => t.dueDate,
    ttype := match b.ttype with | some v => some v | none => t.ttype,
    linkedTasks := b.linkedTasks.getD t.linkedTasks }

/-- Mongo `findOneAndUpdate({_id: tid}, ...)` rewrites the first matching document. -/
def updateFirst (ts : List Task) (tid : TaskId) (nt : Task) : List Task :=
  match ts with
  | [] => []
  | t :: rest => if t.id == tid then nt :: rest else t :: updateFirst rest tid nt

/-- PUT /api/tasks/:id (`putTask`): update first, then fetch `oldTask` with
`findById` — which at that point already returns the UPDATED document — diff
`title` and `group` against it, `recordAudit('update', changes)`, notify,
answer 200. -/
def putTask (db : DB) (fl : Fail) (actor : UserId) (tid : TaskId)
    (b : UpdateBody) : Nat × DB :=
  match findTask db tid with
  | none => (404, db)
  | some old =>
    let updatedTask := applyUpdate old b
    let db1 := { db with tasks := updateFirst db.tasks tid updatedTask }
    match findTask db1 tid with
    | none => (500, db1)
    | some oldTask =>
      let d : UpdateDiff :=
        { title := if !(oldTask.title == updatedTask.title) then some updatedTask.title else none,
          group := if !(oldTask.group == updatedTask.group) then some updatedTask.group else none }
      let db2 := recordAudit db1 fl updatedTask.id "update" actor (AuditChanges.updateDiff d)
      let users := getUsersToNotify db2 fl updatedTask
      match sendNotifications db2 fl users updatedTask "update" actor with
      | Except.ok db3 => (200, db3)
      | Except.error _ => (500, db2)

/-- The snapshot the delete route passes to `recordAudit` (field list copied
from the source; `type` is not among them). -/
def deleteSnapOf (t : Task) : DeleteSnap :=
  { title := t.title, description := t.description, link := t.link, tags := t.tags,
    visibility := t.visibility, completed := t.completed, status := t.status,
    group := t.group, owner := t.owner, assigned_by := t.assigned_by,
    assigned_to := t.assigned_to, priority := t.priority, dueDate := t.dueDate,
    linkedTasks := t.linkedTasks }

/-- Mongo `findOneAndDelete({_id: tid})` removes the first matching document. -/
def eraseTask (ts : List Task) (tid : TaskId) : List Task :=
  match ts with
  | [] => []
  | t :: rest => if t.id == tid then rest else t :: eraseTask rest tid

/-- DELETE /api/tasks/:id (`deleteTask`): 404 when absent, else
`recordAudit('delete', snapshot)`, delete, notify with 'deleted', answer 200. -/
def deleteTask (db : DB) (fl : Fail) (actor : UserId) (tid : TaskId) : Nat × DB :=
  match findTask db tid with
  | none => (404, db)
  | some taskToDelete =>
    let db1 := recordAudit db fl taskToDelete.id "delete" actor
      (AuditChanges.deleteSnap (deleteSnapOf taskToDelete))
    let db2 := { db1 with tasks := eraseTask db1.tasks tid }
    let users := getUsersToNotify db2 fl taskToDelete
    match sendNotifications db2 fl users taskToDelete "deleted" actor with
    | Except.ok db3 => (200, db3)
    | Except.error _ => (500, db2)

/-- Mongo `findByIdAndDelete(groupId)` removes the first matching group document. -/
def eraseGroup (gs : List Group) (gid : GroupId) : List Group :=
  match gs with
  | [] => []
  | g :: rest => if g.id == gid then rest else g :: eraseGroup rest gid

/-- DELETE /api/groups/:id (`deleteGroup`): 404 when absent, 403 when the
caller is not the owner (nothing touched), otherwise delete the group, then
`Task.deleteMany({ group: groupId })`, answer 200.  No audit record and no
notification is written anywhere in this route. -/
def deleteGroup (db : DB) (actor : UserId) (gid : GroupId) : Nat × DB :=
  match findGroup db gid with
  | none => (404, db)
  | some g =>
    if !(g.owner == actor) then (403, db)
    else
      let db1 := { db with groups := eraseGroup db.groups gid }
      let db2 := { db1 with tasks := db1.tasks.filter (fun t => !(t.group == some gid)) }
      (200, db2)

/-- A signed session token: the payload `{ userId }`, the optional `exp`
claim (absolute expiry in seconds) and the secret it was signed with. -/
structure Token where
  userId : UserId
  exp : Option Nat
  secret : String
deriving Repr, DecidableEq

/-- What the `jwt` cookie may carry. -/
inductive Cookie where
  | missing
  | malformed
  | signed (t : Token)
deriving Repr, DecidableEq

inductive AuthResult where
  | unauthorized
  | ok (userId : UserId)
deriving Repr, DecidableEq

/-- POST /api/users/login signs `{ userId }` with `expiresIn: '1h'`. -/
def signLogin (secret : String) (uid : UserId) (issuedAt : Nat) : Token :=
  { userId := uid, exp := some (issuedAt + 3600), secret := secret }

/-- POST /api/users/signup signs `{ userId }` WITHOUT any `expiresIn`. -/
def signSignup (secret : String) (uid : UserId) : Token :=
  { userId := uid, exp := none, secret := secret }

/-- Source `jwt.verify`: signature check plus, when an `exp` claim is present, the
clock comparison (a token is expired as soon as `now ≥ exp`). -/
def jwtVerify (serverSecret : String) (now : Nat) (t : Token) : Bool :=
  t.secret == serverSecret &&
    (match t.exp with
     | some e => decide (now < e)
     | none => true)

/-- Source `authMiddleware`: 401 when the cookie is absent or `jwt.verify` throws
(malformed, bad signature, expired); on success the request proceeds with
`req.userId` set to the decoded id.  The middleware performs no lookup in the
user collection. -/
def authMiddleware (serverSecret : String) (now : Nat) (c : Cookie) : AuthResult :=
  match c with
  | Cookie.missing => AuthResult.unauthorized
  | Cookie.malformed => AuthResult.unauthorized
  | Cookie.signed t =>
    if jwtVerify serverSecret now t then AuthResult.ok t.userId
    else AuthResult.unauthorized

/-- Whether a user id resolves to a stored user. -/
def userExists (db : DB) (uid : UserId) : Bool :=
  (findUser db uid).isSome

/-! Concrete fixtures used by counterexamples and witnesses. -/

def hexU1 : UserId := "aaaaaaaaaaaaaaaaaaaaaaaa"

def hexU2 : UserId := "bbbbbbbbbbbbbbbbbbbbbbbb"

def hexG1 : GroupId := "cccccccccccccccccccccccc"

/-- A group-visible stored task owned by `hexU2`. -/
def groupTask : Task :=
  { id := "t1", title := "A", owner := hexU2, visibility := "group", group := some hexG1 }

/-- Two users, one group (owner `hexU2`, sole member `hexU1`), one stored
group-visible task; empty audit and notification collections. -/
def wDB : DB :=
  { users := [⟨hexU1, "Alice", "alice@x"⟩, ⟨hexU2, "Bob", "bob@x"⟩],
    groups := [⟨hexG1, "G", hexU2, [hexU1]⟩],
    tasks := [groupTask],
    audits := [], notifications := [] }

/-- Create-body: group-visible task assigned to `hexU1`, who is also the sole
member of the target group. -/
def fanoutBody : CreateBody :=
  { title := some "T", visibility := some "group", group := some hexG1,
    assigned_to := some hexU1 }

/-- Create-body with no assignee (used where the notification cast must not
interfere). -/
def plainBody : CreateBody :=
  { title := some "N", visibility := some "group", group := some hexG1 }

/-- The task `plainBody` builds for owner `hexU2` under fresh id "n1". -/
def plainTask : Task :=
  { id := "n1", title := "N", owner := hexU2, visibility := "group", group := some hexG1 }

/-- A store whose only task carries a free-form person name in `assigned_to`. -/
def nameTask : Task :=
  { id := "t1", title := "A", owner := hexU2, assigned_to := some "Alice Johnson" }

def nameDB : DB :=
  { users := [], groups := [], tasks := [nameTask], audits := [], notifications := [] }

/-- Single-task store for the update-diff counterexample. -/
def diffDB : DB :=
  { users := [], groups := [],
    tasks := [{ id := "t1", title := "A", owner := hexU2 }],
    audits := [], notifications := [] }

/-- A store with no users at all. -/
def emptyDB : DB :=
  { users := [], groups := [], tasks := [], audits := [], notifications := [] }

end SyncEdge

namespace SyncEdge

theorem contains_iff_mem {l : List String} {a : String} :
    l.contains a = true ↔ a ∈ l :=
  ⟨List.mem_of_elem_eq_true, List.elem_eq_true_of_mem⟩

theorem mem_memberGroupIds (db : DB) (u : UserId) (gid : GroupId) :
    gid ∈ memberGroupIds db u ↔ ∃ g, g ∈ db.groups ∧ g.id = gid ∧ u ∈ g.members := by
  simp only [memberGroupIds, List.mem_map, List.mem_filter, contains_iff_mem]
  constructor
  · rintro ⟨g, ⟨hg, hm⟩, rfl⟩
    exact ⟨g, hg, rfl, hm⟩
  · rintro ⟨g, hg, rfl, hm⟩
    exact ⟨g, ⟨hg, hm⟩, rfl⟩

theorem taskVisibleTo_iff (db : DB) (u : UserId) (t : Task) :
    taskVisibleTo db u t = true ↔
      (t.owner = u ∨ t.assigned_by = some u ∨ t.assigned_to = some u ∨
        t.visibility = "public" ∨
        (t.visibility = "group" ∧ ∃ gid, t.group = some gid ∧
          ∃ g, g ∈ db.groups ∧ g.id = gid ∧ u ∈ g.members)) := by
  rw [taskVisibleTo]
  cases hg : t.group with
  | none =>
      simp only [Bool.or_eq_true, beq_iff_eq, Bool.and_eq_true]
      constructor
      · rintro ((((h | h) | h) | h) | ⟨hv, hfalse⟩)
        · exact Or.inl h
        · exact Or.inr (Or.inl h)
        · exact Or.inr (Or.inr (Or.inl h))
        · exact Or.inr (Or.inr (Or.inr (Or.inl h)))
        · exact absurd hfalse (by simp)
      · rintro (h | h | h | h | ⟨hv, gid, hgid, hmem⟩)
        · exact Or.inl (Or.inl (Or.inl (Or.inl h)))
        · exact Or.inl (Or.inl (Or.inl (Or.inr h)))
        · exact Or.inl (Or.inl (Or.inr h))
        · exact Or.inl (Or.inr h)
        · cases hgid
  | some gid =>
      simp only [Bool.or_eq_true, beq_iff_eq, Bool.and_eq_true, contains_iff_mem,
        mem_memberGroupIds, Option.some.injEq]
      constructor
      · rintro ((((h | h) | h) | h) | ⟨hv, hmem⟩)
        · exact Or.inl h
        · exact Or.inr (Or.inl h)
        · exact Or.inr (Or.inr (Or.inl h))
        · exact Or.inr (Or.inr (Or.inr (Or.inl h)))
        · exact Or.inr (Or.inr (Or.inr (Or.inr ⟨hv, gid, rfl, hmem⟩)))
      · rintro (h | h | h | h | ⟨hv, gid', hgid, hmem⟩)
        · exact Or.inl (Or.inl (Or.inl (Or.inl h)))
        · exact Or.inl (Or.inl (Or.inl (Or.inr h)))
        · exact Or.inl (Or.inl (Or.inr h))
        · exact Or.inl (Or.inr h)
        · cases hgid
          exact Or.inr ⟨hv, hmem⟩

/-- C1: GET /api/tasks includes a task T for requesting user U iff T is stored
and at least one of: U is T's owner; U equals T's assigned_by; U equals T's
assigned_to; T is public; or T is group-visible and U is a member of the group
referenced by T.group. -/
theorem getTasks_visibility_iff (db : DB) (u : UserId) (t : Task) :
    t ∈ getTasks db u ↔
      t ∈ db.tasks ∧
        (t.owner = u ∨ t.assigned_by = some u ∨ t.assigned_to = some u ∨
          t.visibility = "public" ∨
          (t.visibility = "group" ∧ ∃ gid, t.group = some gid ∧
            ∃ g, g ∈ db.groups ∧ g.id = gid ∧ u ∈ g.members)) := by
  rw [getTasks, List.mem_filter]
  exact and_congr_right (fun _ => taskVisibleTo_iff db u t)

theorem recordAudit_users (db : DB) (fl : Fail) (tid : TaskId) (a : String)
    (u : UserId) (ch : AuditChanges) : (recordAudit db fl tid a u ch).users = db.users := by
  unfold recordAudit; split <;> rfl

theorem recordAudit_groups (db : DB) (fl : Fail) (tid : TaskId) (a : String)
    (u : UserId) (ch : AuditChanges) : (recordAudit db fl tid a u ch).groups = db.groups := by
  unfold recordAudit; split <;> rfl

theorem recordAudit_tasks (db : DB) (fl : Fail) (tid : TaskId) (a : String)
    (u : UserId) (ch : AuditChanges) : (recordAudit db fl tid a u ch).tasks = db.tasks := by
  unfold recordAudit; split <;> rfl

theorem recordAudit_notifications (db : DB) (fl : Fail) (tid : TaskId) (a : String)
    (u : UserId) (ch : AuditChanges) :
    (recordAudit db fl tid a u ch).notifications = db.notifications := by
  unfold recordAudit; split <;> rfl

theorem recordAudit_audits (db : DB) (fl : Fail) (tid : TaskId) (a : String)
    (u : UserId) (ch : AuditChanges) :
    (recordAudit db fl tid a u ch).audits =
      (if fl.auditSave then db.audits else db.audits ++
        [{ taskId := tid, action := a, changedBy := u, changes := ch }]) := by
  unfold recordAudit; split <;> simp_all

theorem getUsersToNotify_congr (db db' : DB) (fl : Fail) (t : Task)
    (h : db.groups = db'.groups) :
    getUsersToNotify db fl t = getUsersToNotify db' fl t := by
  unfold getUsersToNotify getUsersToNotifyE findGroup
  rw [h]

theorem notifMessage_congr (db db' : DB) (t : Task) (ty : String) (a : UserId)
    (h : db.users = db'.users) :
    notifMessage db t ty a = notifMessage db' t ty a := by
  unfold notifMessage findUser
  rw [h]

theorem notifMessage_assignment_ok (db : DB) (t : Task) (a : UserId)
    (hc : t.assigned_to.isSome = true → isValidObjectId (t.assigned_to.getD "") = true) :
    ∃ m, notifMessage db t "assignment" a = Except.ok m := by
  unfold notifMessage
  cases hj : t.assigned_to.isSome with
  | false => simp only [hj]; exact ⟨_, rfl⟩
  | true => simp only [hj, hc hj]; exact ⟨_, rfl⟩

theorem notifMessage_assignment_error (db : DB) (t : Task) (a : UserId) (s : String)
    (ha : t.assigned_to = some s) (hinv : isValidObjectId s = false) :
    notifMessage db t "assignment" a = Except.error () := by
  unfold notifMessage
  rw [ha]
  simp [hinv]

theorem sendNotifications_error (db : DB) (fl : Fail) (us : List ObjId) (t : Task)
    (ty : String) (a : UserId) (e : Unit)
    (hm : notifMessage db t ty a = Except.error e) :
    sendNotifications db fl us t ty a = Except.error e := by
  unfold sendNotifications
  rw [hm]

theorem notifMessage_update_ok (db : DB) (t : Task) (a : UserId) :
    ∃ m, notifMessage db t "update" a = Except.ok m := ⟨_, rfl⟩

theorem notifMessage_deleted_ok (db : DB) (t : Task) (a : UserId) :
    ∃ m, notifMessage db t "deleted" a = Except.ok m := ⟨_, rfl⟩

theorem sendNotifications_eq (db : DB) (fl : Fail) (us : List ObjId) (t : Task)
    (ty : String) (a : UserId) (m : String)
    (hm : notifMessage db t ty a = Except.ok m) :
    sendNotifications db fl us t ty a =
      (if fl.notifInsert then Except.error ()
       else Except.ok { db with notifications := db.notifications ++ notifBatch us t m ty }) := by
  unfold sendNotifications
  rw [hm]

theorem getUsersToNotify_groupFind_fail (db : DB) (fl : Fail) (t : Task)
    (hg : fl.groupFind = true) (hv : t.visibility = "group") (hs : t.group.isSome = true) :
    getUsersToNotify db fl t = [] := by
  unfold getUsersToNotify getUsersToNotifyE
  cases hj : jsTruthy t.assigned_to with
  | false => simp [hj, hv, hs, hg]
  | true =>
    cases hval : isValidObjectId (t.assigned_to.getD "") with
    | false => simp [hj, hval]
    | true => simp [hj, hval, hv, hs, hg]

theorem getUsersToNotify_invalid (db : DB) (fl : Fail) (t : Task)
    (hj : jsTruthy t.assigned_to = true)
    (hinv : isValidObjectId (t.assigned_to.getD "") = false) :
    getUsersToNotify db fl t = [] := by
  unfold getUsersToNotify getUsersToNotifyE
  simp [hj, hinv]

theorem findTask_some_id (db : DB) (tid : TaskId) (t : Task)
    (h : findTask db tid = some t) : t.id = tid := by
  unfold findTask at h
  have hp := List.find?_some h
  simp only [beq_iff_eq] at hp
  exact hp

theorem applyUpdate_id (t : Task) (b : UpdateBody) : (applyUpdate t b).id = t.id := rfl

theorem find?_updateFirst (ts : List Task) (tid : TaskId) (nt : Task)
    (hs : (ts.find? (fun t => t.id == tid)).isSome = true) (hid : nt.id = tid) :
    (updateFirst ts tid nt).find? (fun t => t.id == tid) = some nt := by
  induction ts with
  | nil => simp [List.find?] at hs
  | cons a rest ih =>
    rw [updateFirst]
    by_cases ha : a.id = tid
    · rw [if_pos (beq_iff_eq.mpr ha)]
      exact List.find?_cons_of_pos _ (beq_iff_eq.mpr hid)
    · have ha' : (a.id == tid) = false := beq_eq_false_iff_ne.mpr ha
      rw [if_neg (by simp [ha'])]
      rw [List.find?_cons_of_neg _ (by simp [ha'])]
      rw [List.find?_cons_of_neg _ (by simp [ha'])] at hs
      exact ih hs

theorem postTask_shape_msg (db : DB) (fl : Fail) (actor : UserId) (b : CreateBody)
    (nt : Task) (newId : TaskId) (m : String)
    (hb : buildNewTask b actor newId = some nt)
    (hm : notifMessage db nt "assignment" actor = Except.ok m) :
    (postTask db fl actor b newId).1 = (if fl.notifInsert then 500 else 201) ∧
      (postTask db fl actor b newId).2.users = db.users ∧
      (postTask db fl actor b newId).2.groups = db.groups ∧
      (postTask db fl actor b newId).2.tasks = db.tasks ++ [nt] ∧
      (postTask db fl actor b newId).2.audits =
        (if fl.auditSave then db.audits else db.audits ++
          [{ taskId := nt.id, action := "create", changedBy := actor,
             changes := AuditChanges.createSnap nt }]) ∧
      (postTask db fl actor b newId).2.notifications =
        (if fl.notifInsert then db.notifications else db.notifications ++
          notifBatch (getUsersToNotify db fl nt) nt m "assignment") := by
  simp only [postTask, hb]
  set db1 : DB := { db with tasks := db.tasks ++ [nt] } with hdb1
  set db2 : DB := recordAudit db1 fl nt.id "create" actor (AuditChanges.createSnap nt) with hdb2
  have h2u : db2.users = db.users := recordAudit_users db1 fl _ _ _ _
  have h2g : db2.groups = db.groups := recordAudit_groups db1 fl _ _ _ _
  have h2t : db2.tasks = db.tasks ++ [nt] := recordAudit_tasks db1 fl _ _ _ _
  have h2n : db2.notifications = db.notifications := recordAudit_notifications db1 fl _ _ _ _
  have h2a : db2.audits = (if fl.auditSave then db.audits else db.audits ++
      [{ taskId := nt.id, action := "create", changedBy := actor,
         changes := AuditChanges.createSnap nt }]) := recordAudit_audits db1 fl _ _ _ _
  have hgu : getUsersToNotify db2 fl nt = getUsersToNotify db fl nt :=
    getUsersToNotify_congr db2 db fl nt h2g
  have hm2 : notifMessage db2 nt "assignment" actor = Except.ok m :=
    (notifMessage_congr db2 db nt "assignment" actor h2u).trans hm
  rw [sendNotifications_eq db2 fl _ nt "assignment" actor m hm2]
  cases hni : fl.notifInsert with
  | true =>
      rw [if_pos rfl]
      exact ⟨rfl, h2u, h2g, h2t, h2a, h2n⟩
  | false =>
      rw [if_neg (by simp)]
      refine ⟨rfl, h2u, h2g, h2t, h2a, ?_⟩
      show db2.notifications ++ notifBatch (getUsersToNotify db2 fl nt) nt m "assignment" = _
      rw [h2n, hgu]
      simp

theorem postTask_shape (db : DB) (fl : Fail) (actor : UserId) (b : CreateBody)
    (nt : Task) (newId : TaskId)
    (hb : buildNewTask b actor newId = some nt)
    (hc : nt.assigned_to.isSome = true → isValidObjectId (nt.assigned_to.getD "") = true) :
    ∃ m,
      (postTask db fl actor b newId).1 = (if fl.notifInsert then 500 else 201) ∧
      (postTask db fl actor b newId).2.users = db.users ∧
      (postTask db fl actor b newId).2.groups = db.groups ∧
      (postTask db fl actor b newId).2.tasks = db.tasks ++ [nt] ∧
      (postTask db fl actor b newId).2.audits =
        (if fl.auditSave then db.audits else db.audits ++
          [{ taskId := nt.id, action := "create", changedBy := actor,
             changes := AuditChanges.createSnap nt }]) ∧
      (postTask db fl actor b newId).2.notifications =
        (if fl.notifInsert then db.notifications else db.notifications ++
          notifBatch (getUsersToNotify db fl nt) nt m "assignment") := by
  obtain ⟨m, hm⟩ := notifMessage_assignment_ok db nt actor hc
  exact ⟨m, postTask_shape_msg db fl actor b nt newId m hb hm⟩

theorem postTask_error_shape (db : DB) (fl : Fail) (actor : UserId) (b : CreateBody)
    (nt : Task) (newId : TaskId) (e : Unit)
    (hb : buildNewTask b actor newId = some nt)
    (hm : notifMessage db nt "assignment" actor = Except.error e) :
    (postTask db fl actor b newId).1 = 500 ∧
      (postTask db fl actor b newId).2.users = db.users ∧
      (postTask db fl actor b newId).2.groups = db.groups ∧
      (postTask db fl actor b newId).2.tasks = db.tasks ++ [nt] ∧
      (postTask db fl actor b newId).2.audits =
        (if fl.auditSave then db.audits else db.audits ++
          [{ taskId := nt.id, action := "create", changedBy := actor,
             changes := AuditChanges.createSnap nt }]) ∧
      (postTask db fl actor b newId).2.notifications = db.notifications := by
  simp only [postTask, hb]
  set db1 : DB := { db with tasks := db.tasks ++ [nt] } with hdb1
  set db2 : DB := recordAudit db1 fl nt.id "create" actor (AuditChanges.createSnap nt) with hdb2
  have h2u : db2.users = db.users := recordAudit_users db1 fl _ _ _ _
  have h2g : db2.groups = db.groups := recordAudit_groups db1 fl _ _ _ _
  have h2t : db2.tasks = db.tasks ++ [nt] := recordAudit_tasks db1 fl _ _ _ _
  have h2n : db2.notifications = db.notifications := recordAudit_notifications db1 fl _ _ _ _
  have h2a : db2.audits = (if fl.auditSave then db.audits else db.audits ++
      [{ taskId := nt.id, action := "create", changedBy := actor,
         changes := AuditChanges.createSnap nt }]) := recordAudit_audits db1 fl _ _ _ _
  have hm2 : notifMessage db2 nt "assignment" actor = Except.error e :=
    (notifMessage_congr db2 db nt "assignment" actor h2u).trans hm
  rw [sendNotifications_error db2 fl _ nt "assignment" actor e hm2]
  exact ⟨rfl, h2u, h2g, h2t, h2a, h2n⟩

theorem putTask_shape (db : DB) (fl : Fail) (actor : UserId) (tid : TaskId)
    (ub : UpdateBody) (old : Task)
    (hf : findTask db tid = some old) :
    ∃ m,
      (putTask db fl actor tid ub).1 = (if fl.notifInsert then 500 else 200) ∧
      (putTask db fl actor tid ub).2.users = db.users ∧
      (putTask db fl actor tid ub).2.groups = db.groups ∧
      (putTask db fl actor tid ub).2.tasks = updateFirst db.tasks tid (applyUpdate old ub) ∧
      (putTask db fl actor tid ub).2.audits =
        (if fl.auditSave then db.audits else db.audits ++
          [{ taskId := (applyUpdate old ub).id, action := "update", changedBy := actor,
             changes := AuditChanges.updateDiff { title := none, group := none } }]) ∧
      (putTask db fl actor tid ub).2.notifications =
        (if fl.notifInsert then db.notifications else db.notifications ++
          notifBatch (getUsersToNotify db fl (applyUpdate old ub)) (applyUpdate old ub)
            m "update") := by
  obtain ⟨m, hm⟩ := notifMessage_update_ok db (applyUpdate old ub) actor
  refine ⟨m, ?_⟩
  have hid : (applyUpdate old ub).id = tid := (applyUpdate_id old ub).trans (findTask_some_id db tid old hf)
  have hfind1 : findTask { db with tasks := updateFirst db.tasks tid (applyUpdate old ub) } tid =
      some (applyUpdate old ub) := by
    show (updateFirst db.tasks tid (applyUpdate old ub)).find? (fun t => t.id == tid) =
      some (applyUpdate old ub)
    refine find?_updateFirst db.tasks tid (applyUpdate old ub) ?_ hid
    unfold findTask at hf
    rw [hf]
    rfl
  simp only [putTask, hf, hfind1]
  simp only [beq_self_eq_true, Bool.not_true, Bool.false_eq_true, if_false]
  set ut : Task := applyUpdate old ub with hut
  set db1 : DB := { db with tasks := updateFirst db.tasks tid ut } with hdb1
  set db2 : DB := recordAudit db1 fl ut.id "update" actor
    (AuditChanges.updateDiff { title := none, group := none }) with hdb2
  have h2u : db2.users = db.users := recordAudit_users db1 fl _ _ _ _
  have h2g : db2.groups = db.groups := recordAudit_groups db1 fl _ _ _ _
  have h2t : db2.tasks = updateFirst db.tasks tid ut := recordAudit_tasks db1 fl _ _ _ _
  have h2n : db2.notifications = db.notifications := recordAudit_notifications db1 fl _ _ _ _
  have h2a : db2.audits = (if fl.auditSave then db.audits else db.audits ++
      [{ taskId := ut.id, action := "update", changedBy := actor,
         changes := AuditChanges.updateDiff { title := none, group := none } }]) :=
    recordAudit_audits db1 fl _ _ _ _
  have hgu : getUsersToNotify db2 fl ut = getUsersToNotify db fl ut :=
    getUsersToNotify_congr db2 db fl ut h2g
  have hm2 : notifMessage db2 ut "update" actor = Except.ok m :=
    (notifMessage_congr db2 db ut "update" actor h2u).trans hm
  rw [sendNotifications_eq db2 fl _ ut "update" actor m hm2]
  cases hni : fl.notifInsert with
  | true =>
      rw [if_pos rfl]
      exact ⟨rfl, h2u, h2g, h2t, h2a, h2n⟩
  | false =>
      rw [if_neg (by simp)]
      refine ⟨rfl, h2u, h2g, h2t, h2a, ?_⟩
      show db2.notifications ++ notifBatch (getUsersToNotify db2 fl ut) ut m "update" = _
      rw [h2n, hgu]
      simp

theorem deleteTask_shape (db : DB) (fl : Fail) (actor : UserId) (tid : TaskId)
    (old : Task)
    (hf : findTask db tid = some old) :
    ∃ m,
      (deleteTask db fl actor tid).1 = (if fl.notifInsert then 500 else 200) ∧
      (deleteTask db fl actor tid).2.users = db.users ∧
      (deleteTask db fl actor tid).2.groups = db.groups ∧
      (deleteTask db fl actor tid).2.tasks = eraseTask db.tasks tid ∧
      (deleteTask db fl actor tid).2.audits =
        (if fl.auditSave then db.audits else db.audits ++
          [{ taskId := old.id, action := "delete", changedBy := actor,
             changes := AuditChanges.deleteSnap (deleteSnapOf old) }]) ∧
      (deleteTask db fl actor tid).2.notifications =
        (if fl.notifInsert then db.notifications else db.notifications ++
          notifBatch (getUsersToNotify db fl old) old m "deleted") := by
  obtain ⟨m, hm⟩ := notifMessage_deleted_ok db old actor
  refine ⟨m, ?_⟩
  simp only [deleteTask, hf]
  set db1 : DB := recordAudit db fl old.id "delete" actor
    (AuditChanges.deleteSnap (deleteSnapOf old)) with hdb1
  have h1u : db1.users = db.users := recordAudit_users db fl _ _ _ _
  have h1g : db1.groups = db.groups := recordAudit_groups db fl _ _ _ _
  have h1t : db1.tasks = db.tasks := recordAudit_tasks db fl _ _ _ _
  have h1n : db1.notifications = db.notifications := recordAudit_notifications db fl _ _ _ _
  have h1a : db1.audits = (if fl.auditSave then db.audits else db.audits ++
      [{ taskId := old.id, action := "delete", changedBy := actor,
         changes := AuditChanges.deleteSnap (deleteSnapOf old) }]) :=
    recordAudit_audits db fl _ _ _ _
  set db2 : DB := { db1 with tasks := eraseTask db1.tasks tid } with hdb2
  have h2u : db2.users = db.users := h1u
  have h2g : db2.groups = db.groups := h1g
  have h2t : db2.tasks = eraseTask db.tasks tid := by rw [hdb2, h1t]
  have h2n : db2.notifications = db.notifications := h1n
  have h2a : db2.audits = (if fl.auditSave then db.audits else db.audits ++
      [{ taskId := old.id, action := "delete", changedBy := actor,
         changes := AuditChanges.deleteSnap (deleteSnapOf old) }]) := h1a
  have hgu : getUsersToNotify db2 fl old = getUsersToNotify db fl old :=
    getUsersToNotify_congr db2 db fl old h2g
  have hm2 : notifMessage db2 old "deleted" actor = Except.ok m :=
    (notifMessage_congr db2 db old "deleted" actor h2u).trans hm
  rw [sendNotifications_eq db2 fl _ old "deleted" actor m hm2]
  cases hni : fl.notifInsert with
  | true =>
      rw [if_pos rfl]
      exact ⟨rfl, h2u, h2g, h2t, h2a, h2n⟩
  | false =>
      rw [if_neg (by simp)]
      refine ⟨rfl, h2u, h2g, h2t, h2a, ?_⟩
      show db2.notifications ++ notifBatch (getUsersToNotify db2 fl old) old m "deleted" = _
      rw [h2n, hgu]
      simp

theorem jwtVerify_iff (s : String) (now : Nat) (t : Token) :
    jwtVerify s now t = true ↔ (t.secret = s ∧ ∀ e, t.exp = some e → now < e) := by
  rw [jwtVerify]
  cases he : t.exp with
  | none => simp [he]
  | some e => simp [he]

/-- C6 counterexample: in a store with no users at all, a well-signed
unexpired token for user id "u1" passes the gate with `ok "u1"` even though
"u1" resolves to no existing user, so the gate does not fail `Unauthorized`
whenever the encoded user id no longer resolves. -/
theorem authMiddleware_missing_user_cex :
    userExists emptyDB "u1" = false ∧
    authMiddleware "s" 0 (Cookie.signed { userId := "u1", exp := some 10, secret := "s" }) =
      AuthResult.ok "u1" := by
  constructor
  · rfl
  · rfl

/-- C6 amended: the gate fails `Unauthorized` exactly when the session cookie
is absent, malformed, signed with the wrong secret, or expired; it performs no
user-existence check, and on success the guarded operation proceeds with the
user id decoded from the token. -/
theorem authMiddleware_characterization (s : String) (now : Nat) (c : Cookie) :
    (authMiddleware s now c = AuthResult.unauthorized ↔
      (c = Cookie.missing ∨ c = Cookie.malformed ∨
        ∃ t, c = Cookie.signed t ∧ (t.secret ≠ s ∨ ∃ e, t.exp = some e ∧ e ≤ now))) ∧
    (∀ uid, authMiddleware s now c = AuthResult.ok uid ↔
      (∃ t, c = Cookie.signed t ∧ uid = t.userId ∧ t.secret = s ∧
        ∀ e, t.exp = some e → now < e)) := by
  cases c with
  | missing => simp [authMiddleware]
  | malformed => simp [authMiddleware]
  | signed t =>
    rw [authMiddleware]
    by_cases hv : jwtVerify s now t = true
    · obtain ⟨hsec, hexp⟩ := (jwtVerify_iff s now t).mp hv
      rw [if_pos hv]
      constructor
      · simp only [Cookie.signed.injEq]
        constructor
        · intro h; cases h
        · rintro (h | h | ⟨t', ht', (hne | ⟨e, he, hle⟩)⟩)
          · cases h
          · cases h
          · cases ht'; exact absurd hsec hne
          · cases ht'; exact absurd (hexp e he) (Nat.not_lt.mpr hle)
      · intro uid
        simp only [AuthResult.ok.injEq, Cookie.signed.injEq]
        constructor
        · rintro rfl; exact ⟨t, rfl, rfl, hsec, hexp⟩
        · rintro ⟨t', ht', huid, _, _⟩; cases ht'; exact huid.symm
    · rw [if_neg hv]
      have hnv := hv
      rw [jwtVerify_iff] at hnv
      push_neg at hnv
      constructor
      · constructor
        · intro _
          refine Or.inr (Or.inr ⟨t, rfl, ?_⟩)
          by_cases hsec : t.secret = s
          · obtain ⟨e, he, hle⟩ := hnv hsec
            exact Or.inr ⟨e, he, hle⟩
          · exact Or.inl hsec
        · intro _; rfl
      · intro uid
        constructor
        · intro h; cases h
        · rintro ⟨t', ht', _, hsec, hexp⟩
          cases ht'
          exact absurd ((jwtVerify_iff s now t).mpr ⟨hsec, hexp⟩) hv

/-- C7 counterexample: a token issued by the signup route (signed without any
`expiresIn`) and presented 7200 seconds — two hours — later is still accepted
by the gate, so a token older than 1 hour does not always fail with
`Unauthorized`. -/
theorem signup_token_accepted_after_hour_cex :
    authMiddleware "s" 7200 (Cookie.signed (signSignup "s" "u1")) =
      AuthResult.ok "u1" := by
  rfl

/-- C7 amended: a token issued by the login route is accepted exactly while
less than 1 hour (3600 seconds) has passed since issuance, but a token issued
by the signup route carries no expiry claim and the gate accepts it at any
age. -/
theorem token_expiry_amended (s : String) (uid : UserId) (t0 now : Nat) :
    (authMiddleware s now (Cookie.signed (signLogin s uid t0)) = AuthResult.ok uid ↔
      now < t0 + 3600) ∧
    authMiddleware s now (Cookie.signed (signSignup s uid)) = AuthResult.ok uid := by
  constructor
  · rw [authMiddleware, signLogin, jwtVerify]
    by_cases h : now < t0 + 3600
    · simp [h]
    · simp [h]
  · rw [authMiddleware, signSignup, jwtVerify]
    simp

/-- C2: updating the stored task "t1" and changing its title from "A" to "B"
does append one update AuditRecord — but its `changes` object is empty rather
than `{title: "B"}`, because the route reads `oldTask` with `findById` only
after `findOneAndUpdate` has already run, so the diff compares the new state
with itself.  The response is still 200 and the stored title does become "B". -/
theorem putTask_update_audit_changes_empty :
    (putTask diffDB noFail "u1" "t1" { title := some "B" }).1 = 200 ∧
    (findTask (putTask diffDB noFail "u1" "t1" { title := some "B" }).2 "t1").map
      Task.title = some "B" ∧
    (putTask diffDB noFail "u1" "t1" { title := some "B" }).2.audits =
      [{ taskId := "t1", action := "update", changedBy := "u1",
         changes := AuditChanges.updateDiff { title := none, group := none } }] := by
  refine ⟨rfl, rfl, rfl⟩

/-- C4: creating a task with owner `hexU2`, assignee `hexU1` and group
visibility over a group whose sole member is again `hexU1` inserts THREE
notification records — two of them for `hexU1` — because the JavaScript `Set`
in `getUsersToNotify` holds ObjectId objects and compares them by reference,
so the freshly cast assignee id and the populated member id never merge.  A
user who qualifies as assignee and as group member therefore receives two
records, not one. -/
theorem postTask_duplicate_notification :
    (postTask wDB noFail hexU2 fanoutBody "f1").1 = 201 ∧
    ((postTask wDB noFail hexU2 fanoutBody "f1").2.notifications.map
      Notification.userId) = [hexU1, hexU2, hexU1] ∧
    (((postTask wDB noFail hexU2 fanoutBody "f1").2.notifications.filter
      (fun n => n.userId == hexU1)).length) = 2 := by
  refine ⟨rfl, rfl, rfl⟩

/-- C3 counterexample: with the primary task write succeeding and the
notification insert failing, POST /api/tasks answers 500 — not 201 — even
though the created task stays in the store; the insert failure is surfaced to
the caller. -/
theorem postTask_notifInsert_failure_cex :
    (postTask wDB { notifInsert := true } hexU2 fanoutBody "f1").1 = 500 ∧
    ((postTask wDB { notifInsert := true } hexU2 fanoutBody "f1").2.tasks.map
      Task.id) = ["t1", "f1"] := by
  refine ⟨rfl, rfl⟩

/-- C3 amended: failures inside `getUsersToNotify` (recipient computation)
are swallowed — the create/update/delete routes still answer 201/200 and
simply insert zero notifications; and no notification failure ever rolls the
task write back.  But a failure while inserting the notification records IS
surfaced: a `Notification.insertMany` failure, and likewise the CastError of
the unguarded assignee lookup while building the assignment message, make the
route answer 500 with the task mutation left in place. -/
theorem notify_best_effort_amended (db : DB) (actor : UserId) (b : CreateBody)
    (nt : Task) (newId : TaskId) (tid : TaskId) (ub : UpdateBody) (old : Task)
    (hb : buildNewTask b actor newId = some nt)
    (hc : nt.assigned_to.isSome = true → isValidObjectId (nt.assigned_to.getD "") = true)
    (hf : findTask db tid = some old)
    (hv1 : nt.visibility = "group") (hs1 : nt.group.isSome = true)
    (hv2 : (applyUpdate old ub).visibility = "group")
    (hs2 : (applyUpdate old ub).group.isSome = true)
    (hv3 : old.visibility = "group") (hs3 : old.group.isSome = true) :
    ((postTask db { groupFind := true } actor b newId).1 = 201 ∧
      (postTask db { groupFind := true } actor b newId).2.notifications = db.notifications) ∧
    ((putTask db { groupFind := true } actor tid ub).1 = 200 ∧
      (putTask db { groupFind := true } actor tid ub).2.notifications = db.notifications) ∧
    ((deleteTask db { groupFind := true } actor tid).1 = 200 ∧
      (deleteTask db { groupFind := true } actor tid).2.notifications = db.notifications) ∧
    ((postTask db { notifInsert := true } actor b newId).1 = 500 ∧
      (postTask db { notifInsert := true } actor b newId).2.tasks = db.tasks ++ [nt]) ∧
    ((putTask db { notifInsert := true } actor tid ub).1 = 500 ∧
      (putTask db { notifInsert := true } actor tid ub).2.tasks =
        updateFirst db.tasks tid (applyUpdate old ub)) ∧
    ((deleteTask db { notifInsert := true } actor tid).1 = 500 ∧
      (deleteTask db { notifInsert := true } actor tid).2.tasks = eraseTask db.tasks tid) ∧
    (∀ (b2 : CreateBody) (nt2 : Task) (newId2 : TaskId) (s : String),
      buildNewTask b2 actor newId2 = some nt2 →
      nt2.assigned_to = some s → isValidObjectId s = false →
      (postTask db noFail actor b2 newId2).1 = 500 ∧
      (postTask db noFail actor b2 newId2).2.tasks = db.tasks ++ [nt2] ∧
      (postTask db noFail actor b2 newId2).2.notifications = db.notifications) := by
  obtain ⟨mA, cA, _, _, _, _, nA⟩ := postTask_shape db { groupFind := true } actor b nt newId hb hc
  obtain ⟨mB, cB, _, _, _, _, nB⟩ := putTask_shape db { groupFind := true } actor tid ub old hf
  obtain ⟨mC, cC, _, _, _, _, nC⟩ := deleteTask_shape db { groupFind := true } actor tid old hf
  obtain ⟨mD, cD, _, _, tD, _, _⟩ := postTask_shape db { notifInsert := true } actor b nt newId hb hc
  obtain ⟨mE, cE, _, _, tE, _, _⟩ := putTask_shape db { notifInsert := true } actor tid ub old hf
  obtain ⟨mF, cF, _, _, tF, _, _⟩ := deleteTask_shape db { notifInsert := true } actor tid old hf
  have eA := getUsersToNotify_groupFind_fail db { groupFind := true } nt rfl hv1 hs1
  have eB := getUsersToNotify_groupFind_fail db { groupFind := true } (applyUpdate old ub) rfl hv2 hs2
  have eC := getUsersToNotify_groupFind_fail db { groupFind := true } old rfl hv3 hs3
  refine ⟨⟨cA.trans rfl, ?_⟩, ⟨cB.trans rfl, ?_⟩, ⟨cC.trans rfl, ?_⟩,
    ⟨cD.trans rfl, tD⟩, ⟨cE.trans rfl, tE⟩, ⟨cF.trans rfl, tF⟩, ?_⟩
  · rw [nA, eA]; simp [notifBatch]
  · rw [nB, eB]; simp [notifBatch]
  · rw [nC, eC]; simp [notifBatch]
  · intro b2 nt2 newId2 s hb2 hs2' hinv2
    have herr : notifMessage db nt2 "assignment" actor = Except.error () :=
      notifMessage_assignment_error db nt2 actor s hs2' hinv2
    obtain ⟨cG, _, _, tG, _, nG⟩ :=
      postTask_error_shape db noFail actor b2 nt2 newId2 () hb2 herr
    exact ⟨cG, tG, nG⟩

/-- C5 counterexample: the owner deletes a group whose single task is removed
by the cascade, yet the audit collection stays empty — a task removal with no
matching AuditRecord. -/
theorem deleteGroup_cascade_no_audit_cex :
    (deleteGroup wDB hexU2 hexG1).1 = 200 ∧
    wDB.tasks.length = 1 ∧
    (deleteGroup wDB hexU2 hexG1).2.tasks = [] ∧
    (deleteGroup wDB hexU2 hexG1).2.audits = [] := by
  refine ⟨rfl, rfl, rfl, rfl⟩

/-- C5 amended: every create, update and delete handled by the task routes
appends exactly one AuditRecord with the matching action (when the audit
store itself does not fail), but tasks removed by the group-deletion cascade
are removed with no AuditRecord at all. -/
theorem audit_per_mutation_amended (db : DB) (actor : UserId) (b : CreateBody)
    (nt : Task) (newId : TaskId) (tid : TaskId) (ub : UpdateBody) (old : Task)
    (gid : GroupId) (g : Group)
    (hb : buildNewTask b actor newId = some nt)
    (hc : jsTruthy nt.assigned_to = true → isValidObjectId (nt.assigned_to.getD "") = true)
    (hf : findTask db tid = some old)
    (hg : findGroup db gid = some g) (how : g.owner = actor) :
    (postTask db noFail actor b newId).2.audits =
      db.audits ++
        [{ taskId := nt.id, action := "create", changedBy := actor,
           changes := AuditChanges.createSnap nt }] ∧
    (∃ ch, (putTask db noFail actor tid ub).2.audits =
      db.audits ++
        [{ taskId := (applyUpdate old ub).id, action := "update",
           changedBy := actor, changes := ch }]) ∧
    (deleteTask db noFail actor tid).2.audits =
      db.audits ++
        [{ taskId := old.id, action := "delete", changedBy := actor,
           changes := AuditChanges.deleteSnap (deleteSnapOf old) }] ∧
    ((deleteGroup db actor gid).1 = 200 ∧
      (∀ t, t ∈ db.tasks → t.group = some gid → t ∉ (deleteGroup db actor gid).2.tasks) ∧
      (deleteGroup db actor gid).2.audits = db.audits) := by
  have aA : (postTask db noFail actor b newId).2.audits =
      (if noFail.auditSave then db.audits else db.audits ++
        [{ taskId := nt.id, action := "create", changedBy := actor,
           changes := AuditChanges.createSnap nt }]) := by
    cases hm : notifMessage db nt "assignment" actor with
    | ok m => exact (postTask_shape_msg db noFail actor b nt newId m hb hm).2.2.2.2.1
    | error e => exact (postTask_error_shape db noFail actor b nt newId e hb hm).2.2.2.2.1
  obtain ⟨mB, _, _, _, _, aB, _⟩ := putTask_shape db noFail actor tid ub old hf
  obtain ⟨mC, _, _, _, _, aC, _⟩ := deleteTask_shape db noFail actor tid old hf
  have hstep : deleteGroup db actor gid =
      (200,
        { db with
            groups := eraseGroup db.groups gid,
            tasks := db.tasks.filter (fun t => !(t.group == some gid)) }) := by
    simp [deleteGroup, hg, how]
  refine ⟨aA.trans rfl,
    ⟨AuditChanges.updateDiff { title := none, group := none }, aB.trans rfl⟩,
    aC.trans rfl, ?_, ?_, ?_⟩
  · rw [hstep]
  · intro t ht hgrp hmem
    rw [hstep] at hmem
    have := (List.mem_filter.mp hmem).2
    rw [hgrp] at this
    simp at this
  · rw [hstep]

/-- C8: a failing audit write (its save throwing inside the `recordAudit`
try/catch) is never surfaced: for EVERY create, update and delete request —
the primary write succeeding or not — the run in which the audit save fails
returns the same status code and the same task store as the run in which it
succeeds, and simply leaves the audit collection unchanged; in particular,
whenever the operation otherwise succeeds, the response still reports 201/200
with the task mutation applied. -/
theorem audit_failure_swallowed (db : DB) (actor : UserId) (b : CreateBody)
    (nt : Task) (newId : TaskId) (tid : TaskId) (ub : UpdateBody) (old : Task)
    (hb : buildNewTask b actor newId = some nt)
    (hc : nt.assigned_to.isSome = true → isValidObjectId (nt.assigned_to.getD "") = true)
    (hf : findTask db tid = some old) :
    (∀ (b2 : CreateBody) (newId2 : TaskId),
      (postTask db { auditSave := true } actor b2 newId2).1 =
        (postTask db noFail actor b2 newId2).1 ∧
      (postTask db { auditSave := true } actor b2 newId2).2.tasks =
        (postTask db noFail actor b2 newId2).2.tasks ∧
      (postTask db { auditSave := true } actor b2 newId2).2.audits = db.audits) ∧
    (∀ (tid2 : TaskId) (ub2 : UpdateBody),
      (putTask db { auditSave := true } actor tid2 ub2).1 =
        (putTask db noFail actor tid2 ub2).1 ∧
      (putTask db { auditSave := true } actor tid2 ub2).2.tasks =
        (putTask db noFail actor tid2 ub2).2.tasks ∧
      (putTask db { auditSave := true } actor tid2 ub2).2.audits = db.audits) ∧
    (∀ (tid2 : TaskId),
      (deleteTask db { auditSave := true } actor tid2).1 =
        (deleteTask db noFail actor tid2).1 ∧
      (deleteTask db { auditSave := true } actor tid2).2.tasks =
        (deleteTask db noFail actor tid2).2.tasks ∧
      (deleteTask db { auditSave := true } actor tid2).2.audits = db.audits) ∧
    ((postTask db { auditSave := true } actor b newId).1 = 201 ∧
      (postTask db { auditSave := true } actor b newId).2.tasks = db.tasks ++ [nt] ∧
      (postTask db { auditSave := true } actor b newId).2.audits = db.audits) ∧
    ((putTask db { auditSave := true } actor tid ub).1 = 200 ∧
      (putTask db { auditSave := true } actor tid ub).2.tasks =
        updateFirst db.tasks tid (applyUpdate old ub) ∧
      (putTask db { auditSave := true } actor tid ub).2.audits = db.audits) ∧
    ((deleteTask db { auditSave := true } actor tid).1 = 200 ∧
      (deleteTask db { auditSave := true } actor tid).2.tasks = eraseTask db.tasks tid ∧
      (deleteTask db { auditSave := true } actor tid).2.audits = db.audits) := by
  obtain ⟨mA, cA, _, _, tA, aA, _⟩ := postTask_shape db { auditSave := true } actor b nt newId hb hc
  obtain ⟨mB, cB, _, _, tB, aB, _⟩ := putTask_shape db { auditSave := true } actor tid ub old hf
  obtain ⟨mC, cC, _, _, tC, aC, _⟩ := deleteTask_shape db { auditSave := true } actor tid old hf
  refine ⟨?_, ?_, ?_, ⟨cA.trans rfl, tA, aA.trans rfl⟩, ⟨cB.trans rfl, tB, aB.trans rfl⟩,
    ⟨cC.trans rfl, tC, aC.trans rfl⟩⟩
  · intro b2 newId2
    cases hbT : buildNewTask b2 actor newId2 with
    | none =>
        simp [postTask, hbT]
    | some nt2 =>
        cases hm : notifMessage db nt2 "assignment" actor with
        | ok m =>
            obtain ⟨cX, _, _, tX, aX, _⟩ :=
              postTask_shape_msg db { auditSave := true } actor b2 nt2 newId2 m hbT hm
            obtain ⟨cY, _, _, tY, _, _⟩ :=
              postTask_shape_msg db noFail actor b2 nt2 newId2 m hbT hm
            exact ⟨(cX.trans rfl).trans (cY.trans rfl).symm, tX.trans tY.symm, aX.trans rfl⟩
        | error e =>
            obtain ⟨cX, _, _, tX, aX, _⟩ :=
              postTask_error_shape db { auditSave := true } actor b2 nt2 newId2 e hbT hm
            obtain ⟨cY, _, _, tY, _, _⟩ :=
              postTask_error_shape db noFail actor b2 nt2 newId2 e hbT hm
            exact ⟨cX.trans cY.symm, tX.trans tY.symm, aX.trans rfl⟩
  · intro tid2 ub2
    cases hfT : findTask db tid2 with
    | none =>
        simp [putTask, hfT]
    | some old2 =>
        obtain ⟨mX, cX, _, _, tX, aX, _⟩ :=
          putTask_shape db { auditSave := true } actor tid2 ub2 old2 hfT
        obtain ⟨mY, cY, _, _, tY, _, _⟩ := putTask_shape db noFail actor tid2 ub2 old2 hfT
        exact ⟨(cX.trans rfl).trans (cY.trans rfl).symm, tX.trans tY.symm, aX.trans rfl⟩
  · intro tid2
    cases hfT : findTask db tid2 with
    | none =>
        simp [deleteTask, hfT]
    | some old2 =>
        obtain ⟨mX, cX, _, _, tX, aX, _⟩ :=
          deleteTask_shape db { auditSave := true } actor tid2 old2 hfT
        obtain ⟨mY, cY, _, _, tY, _, _⟩ := deleteTask_shape db noFail actor tid2 old2 hfT
        exact ⟨(cX.trans rfl).trans (cY.trans rfl).symm, tX.trans tY.symm, aX.trans rfl⟩

/-- C8 witness: the theorem applied to the concrete store `wDB`. -/
theorem audit_failure_swallowed_witness :
    (postTask wDB { auditSave := true } hexU2 plainBody "n1").1 = 201 ∧
    (postTask wDB { auditSave := true } hexU2 plainBody "n1").2.audits = [] ∧
    (putTask wDB { auditSave := true } hexU2 "t1" {}).1 = 200 ∧
    (deleteTask wDB { auditSave := true } hexU2 "t1").1 = 200 := by
  obtain ⟨_, _, _, hpost, hput, hdel⟩ :=
    audit_failure_swallowed wDB hexU2 plainBody plainTask "n1" "t1" {} groupTask
      (by decide) (by decide) (by decide)
  exact ⟨hpost.1, hpost.2.2.trans rfl, hput.1, hdel.1⟩

/-- C3 amended witness: the theorem applied to the concrete store `wDB`. -/
theorem notify_best_effort_amended_witness :
    ((postTask wDB { groupFind := true } hexU2 plainBody "n1").1 = 201 ∧
      (postTask wDB { groupFind := true } hexU2 plainBody "n1").2.notifications = []) ∧
    (postTask wDB { notifInsert := true } hexU2 plainBody "n1").1 = 500 ∧
    (deleteTask wDB { notifInsert := true } hexU2 "t1").1 = 500 := by
  obtain ⟨hgf, _, _, hip, _, hid, _⟩ :=
    notify_best_effort_amended wDB hexU2 plainBody plainTask "n1" "t1" {} groupTask
      (by decide) (by decide) (by decide) (by decide) (by decide) (by decide) (by decide)
      (by decide) (by decide)
  exact ⟨⟨hgf.1, hgf.2.trans rfl⟩, hip.1, hid.1⟩

/-- C5 amended witness: the theorem applied to the concrete store `wDB`. -/
theorem audit_per_mutation_amended_witness :
    (postTask wDB noFail hexU2 plainBody "n1").2.audits =
      [{ taskId := "n1", action := "create", changedBy := hexU2,
         changes := AuditChanges.createSnap plainTask }] ∧
    (deleteGroup wDB hexU2 hexG1).2.audits = [] := by
  have h := audit_per_mutation_amended wDB hexU2 plainBody plainTask "n1" "t1" {} groupTask
    hexG1 ⟨hexG1, "G", hexU2, [hexU1]⟩
    (by decide) (by decide) (by decide) (by decide) (by decide)
  exact ⟨h.1.trans rfl, h.2.2.2.2.2.trans rfl⟩

theorem mem_eraseGroup (gs : List Group) (gid : GroupId) (x : Group)
    (hnd : (gs.map Group.id).Nodup) :
    x ∈ eraseGroup gs gid ↔ (x ∈ gs ∧ x.id ≠ gid) := by
  induction gs with
  | nil => simp [eraseGroup]
  | cons a rest ih =>
    rw [List.map_cons, List.nodup_cons] at hnd
    obtain ⟨ha, hrest⟩ := hnd
    rw [eraseGroup]
    by_cases h : a.id = gid
    · rw [if_pos (beq_iff_eq.mpr h)]
      constructor
      · intro hx
        refine ⟨List.mem_cons_of_mem a hx, fun hxg => ?_⟩
        exact ha (List.mem_map.mpr ⟨x, hx, hxg.trans h.symm⟩)
      · rintro ⟨hx, hxg⟩
        rcases List.mem_cons.mp hx with rfl | hx'
        · exact absurd h hxg
        · exact hx'
    · rw [if_neg (by simp [h])]
      rw [List.mem_cons, List.mem_cons, ih hrest]
      constructor
      · rintro (rfl | ⟨hx, hxg⟩)
        · exact ⟨Or.inl rfl, h⟩
        · exact ⟨Or.inr hx, hxg⟩
      · rintro ⟨(rfl | hx), hxg⟩
        · exact Or.inl rfl
        · exact Or.inr ⟨hx, hxg⟩

/-- C9: deleting a group as a caller other than its owner answers 403 and
leaves the whole store — the group and every task — untouched; deleting it as
the owner answers 200, removes exactly the group documents carrying that id,
and removes exactly the tasks whose `group` field references the deleted
group. -/
theorem deleteGroup_access_control (db : DB) (gid : GroupId) (g : Group)
    (hg : findGroup db gid = some g)
    (hnd : (db.groups.map Group.id).Nodup) :
    (∀ actor, actor ≠ g.owner → deleteGroup db actor gid = (403, db)) ∧
    ((deleteGroup db g.owner gid).1 = 200 ∧
      (∀ x, x ∈ (deleteGroup db g.owner gid).2.groups ↔ (x ∈ db.groups ∧ x.id ≠ gid)) ∧
      (∀ t, t ∈ (deleteGroup db g.owner gid).2.tasks ↔
        (t ∈ db.tasks ∧ t.group ≠ some gid))) := by
  have hstep : deleteGroup db g.owner gid =
      (200,
        { db with
            groups := eraseGroup db.groups gid,
            tasks := db.tasks.filter (fun t => !(t.group == some gid)) }) := by
    simp [deleteGroup, hg]
  refine ⟨?_, ?_, ?_, ?_⟩
  · intro actor hne
    have hbeq : (g.owner == actor) = false := beq_eq_false_iff_ne.mpr (Ne.symm hne)
    simp [deleteGroup, hg, hbeq]
  · rw [hstep]
  · intro x
    rw [hstep]
    exact mem_eraseGroup db.groups gid x hnd
  · intro t
    rw [hstep]
    show t ∈ db.tasks.filter (fun t => !(t.group == some gid)) ↔ _
    rw [List.mem_filter]
    constructor
    · rintro ⟨ht, hp⟩
      refine ⟨ht, fun hgr => ?_⟩
      rw [hgr] at hp
      simp at hp
    · rintro ⟨ht, hgr⟩
      refine ⟨ht, ?_⟩
      simp only [Bool.not_eq_true']
      exact beq_eq_false_iff_ne.mpr hgr

/-- C9 witness: the theorem applied to the concrete store `wDB` (`hexU1` is
not the owner of the group, `hexU2` is). -/
theorem deleteGroup_access_control_witness :
    deleteGroup wDB hexU1 hexG1 = (403, wDB) ∧
    (deleteGroup wDB hexU2 hexG1).1 = 200 := by
  have h := deleteGroup_access_control wDB hexG1 ⟨hexG1, "G", hexU2, [hexU1]⟩
    (by decide) (by decide)
  exact ⟨h.1 hexU1 (by decide), h.2.1⟩

/-- C10: a task whose `assigned_to` holds a non-empty string that is not a
valid ObjectId (for instance a person name) makes `getUsersToNotify` return
the empty list — the ObjectId cast throws and the catch-all discards even the
owner and the group members — so update and delete events on that task insert
zero notification records (while still answering 200). -/
theorem invalid_assigned_to_no_notifications (db : DB) (fl : Fail) (t : Task)
    (s : String) (actor : UserId) (tid : TaskId) (ub : UpdateBody)
    (ha : t.assigned_to = some s) (hne : s ≠ "") (hinv : isValidObjectId s = false)
    (hf : findTask db tid = some t) (hub : ub.assigned_to = none) :
    getUsersToNotify db fl t = [] ∧
    ((putTask db noFail actor tid ub).1 = 200 ∧
      (putTask db noFail actor tid ub).2.notifications = db.notifications) ∧
    ((deleteTask db noFail actor tid).1 = 200 ∧
      (deleteTask db noFail actor tid).2.notifications = db.notifications) := by
  have hj : jsTruthy t.assigned_to = true := by
    rw [ha]
    simp [jsTruthy, hne]
  have hgd : t.assigned_to.getD "" = s := by rw [ha]; rfl
  have hempty : ∀ fl', getUsersToNotify db fl' t = [] := fun fl' =>
    getUsersToNotify_invalid db fl' t hj (by rw [hgd]; exact hinv)
  have hup : (applyUpdate t ub).assigned_to = t.assigned_to := by
    simp [applyUpdate, hub]
  have hempty2 : getUsersToNotify db noFail (applyUpdate t ub) = [] :=
    getUsersToNotify_invalid db noFail (applyUpdate t ub)
      (by rw [hup]; exact hj) (by rw [hup, hgd]; exact hinv)
  obtain ⟨m2, c2, _, _, _, _, n2⟩ := putTask_shape db noFail actor tid ub t hf
  obtain ⟨m3, c3, _, _, _, _, n3⟩ := deleteTask_shape db noFail actor tid t hf
  refine ⟨hempty fl, ⟨c2.trans rfl, ?_⟩, ⟨c3.trans rfl, ?_⟩⟩
  · rw [n2, hempty2]; simp [notifBatch]
  · rw [n3, hempty noFail]; simp [notifBatch]

/-- C10 witness: the theorem applied to the store whose only task is assigned
to the free-form name "Alice Johnson". -/
theorem invalid_assigned_to_no_notifications_witness :
    getUsersToNotify nameDB noFail nameTask = [] ∧
    (deleteTask nameDB noFail hexU2 "t1").1 = 200 ∧
    (deleteTask nameDB noFail hexU2 "t1").2.notifications = [] := by
  have h := invalid_assigned_to_no_notifications nameDB noFail nameTask "Alice Johnson"
    hexU2 "t1" {} (by decide) (by decide) (by decide) (by decide) (by decide)
  exact ⟨h.1, h.2.2.1, h.2.2.2.trans rfl⟩

end SyncEdge
